import Mathlib

/-!
# Verification of the fuel-route planning core (routing/views.py)

A shallow embedding of the algorithmic core of the repository:

* `calculate_route_segments` (views.py lines 30-69): splits a polyline route
  into bounded-length segments, parameterised over the geodesic distance
  function `gd` (the external geopy `geodesic(...).miles` computation, which
  the code calls on `(lat, lon)`-swapped points).
* `find_optimal_fuel_stops` (views.py lines 72-139): per-segment fuel-stop
  selection, parameterised over the outcome of the station-index query.
* The aggregation stage of `OptimizedRouteView.post` (lines 176-198) and the
  full `post` handler pipeline (lines 144-205) with an explicit trace of
  external calls.

Machine floats are modelled by exact rationals; Python `round(x, 2)` is
modelled by round-half-to-even on rationals.
-/

/-- joint coordinate type: a point is the pair (longitude, latitude), as stored
in the route coordinate lists of views.py. -/
abbrev Pt : Type := ℚ × ℚ

/-- views.py line 22: MAX_RANGE_MILES = 500 -/
def MAX_RANGE_MILES : ℚ := 500

/-- views.py line 23: MPG = 10 -/
def MPG : ℚ := 10

/-- views.py line 24: SEARCH_RADIUS_MILES = 25 -/
def SEARCH_RADIUS_MILES : ℚ := 25

/-- views.py line 26: MILES_TO_DEGREES = 1/69 -/
def MILES_TO_DEGREES : ℚ := 1 / 69

/-- Python `round` ties-to-even on an exact rational: nearest integer, with
half-way values rounded to the even neighbour. -/
def pyRoundInt (q : ℚ) : ℤ :=
  if q - ⌊q⌋ < 1 / 2 then ⌊q⌋
  else if 1 / 2 < q - ⌊q⌋ then ⌊q⌋ + 1
  else if ⌊q⌋ % 2 = 0 then ⌊q⌋ else ⌊q⌋ + 1

/-- Python `round(x, 2)`: round to 2 decimal places, ties to even. -/
def pyRound2 (q : ℚ) : ℚ := (pyRoundInt (q * 100) : ℚ) / 100

/-- views.py lines 41-43: the geodesic distance of a consecutive pair.  The
code swaps each `[lon, lat]` coordinate into `(lat, lon)` before calling
`geodesic(...).miles`; `gd` stands for that external geodesic computation. -/
def gdSwap (gd : Pt → Pt → ℚ) (a b : Pt) : ℚ :=
  gd (a.2, a.1) (b.2, b.1)

/-- Sum of consecutive-pair geodesic distances along `prev :: rest`. -/
def pathLenAux (gd : Pt → Pt → ℚ) : Pt → List Pt → ℚ
  | _, [] => 0
  | prev, p :: ps => gdSwap gd prev p + pathLenAux gd p ps

/-- Total polyline length of a route (0 for routes with fewer than 2 points). -/
def pathLen (gd : Pt → Pt → ℚ) : List Pt → ℚ
  | [] => 0
  | p :: ps => pathLenAux gd p ps

/-- Every consecutive-pair distance along `prev :: rest` is at most `M`. -/
def pairsLe (gd : Pt → Pt → ℚ) (M : ℚ) : Pt → List Pt → Prop
  | _, [] => True
  | prev, p :: ps => gdSwap gd prev p ≤ M ∧ pairsLe gd M p ps

/-- Every consecutive-pair distance along a whole route is at most `M`. -/
def routePairsLe (gd : Pt → Pt → ℚ) (M : ℚ) : List Pt → Prop
  | [] => True
  | p :: ps => pairsLe gd M p ps

/-- The loop of `calculate_route_segments` (views.py lines 40-67).  State:
`curSeg` is `current_segment`, `cum` is `cumulative_distance`, `prev` is
`route_coordinates[i-1]`, `rest` the points still to process.  On exhaustion
the trailing segment is kept only when it has more than one point (line 65).
In the split branch (lines 46-60) the recorded distance is
`cumulative_distance + remaining_dist` (line 56) and the new segment starts
with the interpolated split point followed by the current point (line 59). -/
def segmentsAux (gd : Pt → Pt → ℚ) (M : ℚ) :
    List Pt → Pt → List Pt → ℚ → List (List Pt) × List ℚ
  | curSeg, _, [], cum =>
      if 1 < curSeg.length then ([curSeg], [cum]) else ([], [])
  | curSeg, prev, p :: ps, cum =>
      let dist := gdSwap gd prev p
      if M < cum + dist then
        let remaining := M - cum
        let ratio := remaining / dist
        let split : Pt :=
          (prev.1 + ratio * (p.1 - prev.1), prev.2 + ratio * (p.2 - prev.2))
        let res := segmentsAux gd M [split, p] p ps (dist - remaining)
        ((curSeg ++ [split]) :: res.1, (cum + remaining) :: res.2)
      else
        segmentsAux gd M (curSeg ++ [p]) p ps (cum + dist)

/-- views.py lines 30-69, `calculate_route_segments(route_coordinates,
max_segment_length)`: split a route into segments of at most (intended)
`max_segment_length` miles, returning the segments together with their
recorded distances. -/
def calculate_route_segments (gd : Pt → Pt → ℚ) (route : List Pt)
    (max_segment_length : ℚ := MAX_RANGE_MILES) : List (List Pt) × List ℚ :=
  match route with
  | [] => ([], [])
  | p :: rest => segmentsAux gd max_segment_length [p] p rest 0

section SegmenterLemmas

/-- The segments list and the distances list always have the same length. -/
theorem segmentsAux_length_eq (gd : Pt → Pt → ℚ) (M : ℚ) :
    ∀ (rest : List Pt) (curSeg : List Pt) (prev : Pt) (cum : ℚ),
      (segmentsAux gd M curSeg prev rest cum).1.length =
        (segmentsAux gd M curSeg prev rest cum).2.length
  | [], curSeg, prev, cum => by
      simp only [segmentsAux]
      split <;> simp
  | p :: ps, curSeg, prev, cum => by
      simp only [segmentsAux]
      split
      · simpa using segmentsAux_length_eq gd M ps _ p _
      · exact segmentsAux_length_eq gd M ps _ p _

/-- The recorded distances sum to the initial accumulator plus the length of
the remaining path, provided the trailing segment is guaranteed to be kept
(current segment already has two points, or points remain). -/
theorem segmentsAux_sum (gd : Pt → Pt → ℚ) (M : ℚ) :
    ∀ (rest : List Pt) (curSeg : List Pt) (prev : Pt) (cum : ℚ),
      1 ≤ curSeg.length →
      2 ≤ curSeg.length ∨ rest ≠ [] →
      (segmentsAux gd M curSeg prev rest cum).2.sum = cum + pathLenAux gd prev rest
  | [], curSeg, prev, cum, _, h => by
      have h2 : 2 ≤ curSeg.length := by
        rcases h with h | h
        · exact h
        · exact absurd rfl h
      simp only [segmentsAux, if_pos (by omega : 1 < curSeg.length)]
      simp [pathLenAux]
  | p :: ps, curSeg, prev, cum, hcs, _ => by
      by_cases hM : M < cum + gdSwap gd prev p
      · have ih := segmentsAux_sum gd M ps
          [(prev.1 + (M - cum) / gdSwap gd prev p * (p.1 - prev.1),
            prev.2 + (M - cum) / gdSwap gd prev p * (p.2 - prev.2)), p]
          p (gdSwap gd prev p - (M - cum)) (by simp) (Or.inl (by simp))
        simp only [segmentsAux, if_pos hM, List.sum_cons, pathLenAux, ih]
        ring
      · have ih := segmentsAux_sum gd M ps (curSeg ++ [p]) p (cum + gdSwap gd prev p)
          (by simp) (Or.inl (by
            simp only [List.length_append, List.length_cons, List.length_nil]
            omega))
        simp only [segmentsAux, if_neg hM, pathLenAux, ih]
        ring

/-- Path lengths are nonnegative when the geodesic distance function is. -/
theorem pathLenAux_nonneg (gd : Pt → Pt → ℚ) (hgd : ∀ a b, 0 ≤ gd a b) :
    ∀ (prev : Pt) (l : List Pt), 0 ≤ pathLenAux gd prev l
  | _, [] => le_refl 0
  | prev, p :: ps => by
      have h1 : (0:ℚ) ≤ gdSwap gd prev p := hgd _ _
      have h2 := pathLenAux_nonneg gd hgd p ps
      simp only [pathLenAux]
      linarith

/-- Every segment produced by the loop has at least 2 points. -/
theorem segmentsAux_seg_points (gd : Pt → Pt → ℚ) (M : ℚ) :
    ∀ (rest : List Pt) (curSeg : List Pt) (prev : Pt) (cum : ℚ),
      1 ≤ curSeg.length →
      ∀ s ∈ (segmentsAux gd M curSeg prev rest cum).1, 2 ≤ s.length
  | [], curSeg, prev, cum, _ => by
      simp only [segmentsAux]
      split
      · intro s hs
        simp only [List.mem_singleton] at hs
        subst hs
        omega
      · intro s hs
        simp at hs
  | p :: ps, curSeg, prev, cum, hcs => by
      by_cases hM : M < cum + gdSwap gd prev p
      · simp only [segmentsAux, if_pos hM]
        intro s hs
        rcases List.mem_cons.mp hs with h | h
        · subst h
          simp only [List.length_append, List.length_cons, List.length_nil]
          omega
        · exact segmentsAux_seg_points gd M ps _ p _ (by simp) s h
      · simp only [segmentsAux, if_neg hM]
        exact segmentsAux_seg_points gd M ps (curSeg ++ [p]) p (cum + gdSwap gd prev p)
          (by simp)

/-- Shape of the recorded distances when every consecutive-pair distance is at
most `M`: a block of distances exactly `M` (one per split) followed by one
trailing distance `f ≤ M`, with `f` positive unless no split happened and the
whole remaining path was absorbed. -/
theorem segmentsAux_shape (gd : Pt → Pt → ℚ) (M : ℚ) (hgd : ∀ a b, 0 ≤ gd a b) :
    ∀ (rest : List Pt) (curSeg : List Pt) (prev : Pt) (cum : ℚ),
      1 ≤ curSeg.length →
      2 ≤ curSeg.length ∨ rest ≠ [] →
      pairsLe gd M prev rest →
      0 ≤ cum → cum ≤ M →
      ∃ k f, (segmentsAux gd M curSeg prev rest cum).2 = List.replicate k M ++ [f]
        ∧ f ≤ M ∧ (0 < f ∨ (k = 0 ∧ f = cum + pathLenAux gd prev rest))
  | [], curSeg, prev, cum, _, h, _, _, hcM => by
      have h2 : 2 ≤ curSeg.length := by
        rcases h with h | h
        · exact h
        · exact absurd rfl h
      simp only [segmentsAux, if_pos (by omega : 1 < curSeg.length)]
      exact ⟨0, cum, by simp, hcM, Or.inr ⟨rfl, by simp [pathLenAux]⟩⟩
  | p :: ps, curSeg, prev, cum, hcs, _, hple, hc0, hcM => by
      have hd : gdSwap gd prev p ≤ M := hple.1
      have hd0 : (0:ℚ) ≤ gdSwap gd prev p := hgd _ _
      by_cases hM : M < cum + gdSwap gd prev p
      · have hc0' : (0:ℚ) < gdSwap gd prev p - (M - cum) := by linarith
        have hcM' : gdSwap gd prev p - (M - cum) ≤ M := by linarith
        obtain ⟨k, f, hrep, hfM, hdisj⟩ := segmentsAux_shape gd M hgd ps
          [(prev.1 + (M - cum) / gdSwap gd prev p * (p.1 - prev.1),
            prev.2 + (M - cum) / gdSwap gd prev p * (p.2 - prev.2)), p]
          p (gdSwap gd prev p - (M - cum)) (by simp) (Or.inl (by simp)) hple.2
          (le_of_lt hc0') hcM'
        refine ⟨k + 1, f, ?_, hfM, Or.inl ?_⟩
        · simp only [segmentsAux, if_pos hM, hrep, List.replicate_succ, List.cons_append,
            List.cons.injEq]
          exact ⟨by ring, trivial⟩
        · rcases hdisj with h | ⟨_, hf⟩
          · exact h
          · have hnn := pathLenAux_nonneg gd hgd p ps
            rw [hf]
            linarith
      · have hcM' : cum + gdSwap gd prev p ≤ M := not_lt.mp hM
        obtain ⟨k, f, hrep, hfM, hdisj⟩ := segmentsAux_shape gd M hgd ps
          (curSeg ++ [p]) p (cum + gdSwap gd prev p)
          (by simp) (Or.inl (by
            simp only [List.length_append, List.length_cons, List.length_nil]
            omega))
          hple.2 (by linarith) hcM'
        refine ⟨k, f, ?_, hfM, ?_⟩
        · simp only [segmentsAux, if_neg hM, hrep]
        · rcases hdisj with h | ⟨hk, hf⟩
          · exact Or.inl h
          · refine Or.inr ⟨hk, ?_⟩
            rw [hf]
            simp only [pathLenAux]
            ring

/-- When the whole remaining path fits in the current segment (its length plus
the accumulator stays within `M`), no split ever fires: the loop returns the
single segment `curSeg ++ rest` with the accumulated distance. -/
theorem segmentsAux_no_split (gd : Pt → Pt → ℚ) (M : ℚ) (hgd : ∀ a b, 0 ≤ gd a b) :
    ∀ (rest : List Pt) (curSeg : List Pt) (prev : Pt) (cum : ℚ),
      1 ≤ curSeg.length →
      2 ≤ curSeg.length ∨ rest ≠ [] →
      cum + pathLenAux gd prev rest ≤ M →
      segmentsAux gd M curSeg prev rest cum = ([curSeg ++ rest], [cum + pathLenAux gd prev rest])
  | [], curSeg, prev, cum, _, h, _ => by
      have h2 : 2 ≤ curSeg.length := by
        rcases h with h | h
        · exact h
        · exact absurd rfl h
      simp only [segmentsAux, if_pos (by omega : 1 < curSeg.length)]
      simp [pathLenAux]
  | p :: ps, curSeg, prev, cum, hcs, _, hfit => by
      have hd0 : (0:ℚ) ≤ gdSwap gd prev p := hgd _ _
      have hnn := pathLenAux_nonneg gd hgd p ps
      have hple : pathLenAux gd prev (p :: ps) = gdSwap gd prev p + pathLenAux gd p ps := rfl
      rw [hple] at hfit
      have hM : ¬ M < cum + gdSwap gd prev p := by
        rw [not_lt]
        linarith
      have ih := segmentsAux_no_split gd M hgd ps (curSeg ++ [p]) p (cum + gdSwap gd prev p)
        (by simp) (Or.inl (by
          simp only [List.length_append, List.length_cons, List.length_nil]
          omega))
        (by linarith)
      simp only [segmentsAux, if_neg hM, ih, pathLenAux, List.append_assoc, List.cons_append,
        List.nil_append, Prod.mk.injEq, List.cons.injEq, and_true, true_and]
      ring

end SegmenterLemmas

/-- routing/models.py lines 3-9: a fuel station row.  `location` is the GEOS
point, stored as (x = longitude, y = latitude) in WGS84 degrees. -/
structure FuelStation where
  name : String
  address : String
  city : String
  state : String
  price : ℚ
  location : ℚ × ℚ
  deriving DecidableEq

/-- The stop dictionary built at views.py lines 122-133. -/
structure FuelStop where
  location : String
  address : String
  city : String
  state : String
  price : ℚ
  latitude : ℚ
  longitude : ℚ
  gallons : ℚ
  cost : ℚ
  segment_distance : ℚ
  deriving DecidableEq

/-- Square of the GEOS planar distance between two points in coordinate
(degree) units.  `s.location.distance(point)` in views.py line 109 computes
the Euclidean distance sqrt(geosDistSq ..): since both sides of every
comparison made with it are nonnegative, comparing distances is equivalent to
comparing their squares,, which keeps the development in exact rationals. -/
def geosDistSq (a b : ℚ × ℚ) : ℚ := (a.1 - b.1) ^ 2 + (a.2 - b.2) ^ 2

/-- views.py line 109: the threshold `D(mi=SEARCH_RADIUS_MILES).m`, i.e. 25
miles converted to METERS (1 mile = 1609.344 m), against which the code
compares the GEOS distance, which is in DEGREES. -/
def searchRadiusMeters : ℚ := SEARCH_RADIUS_MILES * (1609344 / 1000)

/-- The filter of views.py line 109: station `s` passes for target `point`
when `s.location.distance(point) <= D(mi=SEARCH_RADIUS_MILES).m`, expressed
on squared distances. -/
def passesRadiusFilter (s : FuelStation) (point : ℚ × ℚ) : Bool :=
  decide (geosDistSq s.location point ≤ searchRadiusMeters ^ 2)

/-- views.py line 110: the Python sort key `(s.price, s.location.distance(point))`,
with the distance component squared (order-preserving). -/
def stationKey (point : ℚ × ℚ) (s : FuelStation) : ℚ × ℚ :=
  (s.price, geosDistSq s.location point)

/-- Lexicographic comparison of Python sort keys: price first, then
distance-to-target. -/
def stationLe (point : ℚ × ℚ) (s t : FuelStation) : Prop :=
  (stationKey point s).1 < (stationKey point t).1 ∨
    ((stationKey point s).1 = (stationKey point t).1 ∧
      (stationKey point s).2 ≤ (stationKey point t).2)

instance (point : ℚ × ℚ) : DecidableRel (stationLe point) := fun _ _ =>
  inferInstanceAs (Decidable (Or _ _))

instance (point : ℚ × ℚ) : IsTotal FuelStation (stationLe point) where
  total s t := by
    rcases lt_trichotomy (stationKey point s).1 (stationKey point t).1 with h | h | h
    · exact Or.inl (Or.inl h)
    · rcases le_total (stationKey point s).2 (stationKey point t).2 with h2 | h2
      · exact Or.inl (Or.inr ⟨h, h2⟩)
      · exact Or.inr (Or.inr ⟨h.symm, h2⟩)
    · exact Or.inr (Or.inl h)

instance (point : ℚ × ℚ) : IsTrans FuelStation (stationLe point) where
  trans s t u hst htu := by
    rcases hst with h1 | ⟨h1, h1d⟩ <;> rcases htu with h2 | ⟨h2, h2d⟩
    · exact Or.inl (h1.trans h2)
    · exact Or.inl (lt_of_lt_of_eq h1 h2)
    · exact Or.inl (lt_of_eq_of_lt h1 h2)
    · exact Or.inr ⟨h1.trans h2, h1d.trans h2d⟩

/-- views.py lines 108-111 followed by line 114: sort the stations that pass
the per-point radius filter by `(price, distance-to-target)` ascending (Python
`sorted`, a stable sort, modelled by the stable `List.insertionSort`) and take
the first, if any. -/
def selectStation (stations : List FuelStation) (point : ℚ × ℚ) : Option FuelStation :=
  (List.insertionSort (stationLe point)
    (stations.filter (fun s => passesRadiusFilter s point))).head?

/-- views.py line 95: `required_stops = max(1, ceil(segment_distance / MAX_RANGE_MILES))`. -/
def requiredStops (segment_distance : ℚ) : ℕ :=
  max 1 ⌈segment_distance / MAX_RANGE_MILES⌉.toNat

/-- views.py lines 100-101: the target index for stop `i` of `rs`:
`min(int(len(route_segment) * ((i + 0.5) / required_stops)), len(route_segment) - 1)`
(`int` truncation equals floor here since the product is nonnegative). -/
def targetIndex (segLen : ℕ) (i rs : ℕ) : ℕ :=
  min (Int.toNat ⌊(segLen : ℚ) * ((i + 1 / 2) / rs)⌋) (segLen - 1)

/-- views.py lines 115-133: the stop record built for a selected station.
`gallons = min(segment_distance / required_stops, MAX_RANGE_MILES) / MPG`;
`cost = round(price * gallons, 2)`; the recorded `gallons` and
`segment_distance` fields are rounded to 2 decimals for display. -/
def mkFuelStop (s : FuelStation) (segment_distance : ℚ) (rs : ℕ) : FuelStop :=
  let gallons := min (segment_distance / rs) MAX_RANGE_MILES / MPG
  { location := s.name
    address := s.address
    city := s.city
    state := s.state
    price := s.price
    latitude := s.location.2
    longitude := s.location.1
    gallons := pyRound2 gallons
    cost := pyRound2 (s.price * gallons)
    segment_distance := pyRound2 (segment_distance / rs) }

/-- views.py lines 99-133, one iteration of the stop loop of
`find_optimal_fuel_stops`: compute the target point for stop `i`, select the
best station near it, and append the built stop record (the loop body keeps
the accumulator unchanged when no station passes the per-point filter). -/
def collectStop (stations : List FuelStation) (route_segment : List (ℚ × ℚ))
    (segment_distance : ℚ) (required_stops : ℕ) (acc : List FuelStop) (i : ℕ) :
    List FuelStop :=
  let stop_point := route_segment.getD (targetIndex route_segment.length i required_stops)
    (0, 0)
  match selectStation stations stop_point with
  | none => acc
  | some nearest_cheapest =>
      acc ++ [mkFuelStop nearest_cheapest segment_distance required_stops]

/-- views.py lines 72-139, `find_optimal_fuel_stops(route_segment,
segment_distance)`.  The station-index query of lines 87-89 is abstracted by
its outcome `query`: `.error` when the spatial query (or anything else inside
the `try`) raises — the `except` block at lines 137-139 logs and returns
`None` — and `.ok stations` when it returns the candidate list.  Lines 91-92:
an empty candidate list returns `None`.  Lines 98-133: one pass per required
stop (the loop body is `collectStop` above).  Line 135: `None` when no stop
was collected. -/
def find_optimal_fuel_stops (query : Except String (List FuelStation))
    (route_segment : List (ℚ × ℚ)) (segment_distance : ℚ) : Option (List FuelStop) :=
  match query with
  | .error _ => none
  | .ok stations =>
    if stations.isEmpty then none
    else
      let required_stops := requiredStops segment_distance
      let optimal_stops := (List.range required_stops).foldl
        (collectStop stations route_segment segment_distance required_stops) []
      if optimal_stops.isEmpty then none else some optimal_stops

/-- views.py lines 176-180: flatten the per-segment stop lists in segment
order (`fuel_stops.extend(stops)` under `if stops:`). -/
def flattenStops (stationsFor : List (ℚ × ℚ) → Except String (List FuelStation))
    (segments : List (List (ℚ × ℚ))) (segment_distances : List ℚ) : List FuelStop :=
  (segments.zip segment_distances).foldl
    (fun acc sd => acc ++ (find_optimal_fuel_stops (stationsFor sd.1) sd.1 sd.2).getD []) []

/-- views.py lines 176-198, the aggregation stage of `OptimizedRouteView.post`:
returns (HTTP status, error message, reported total fuel cost).  An empty
flattened stop list yields the 404 "No fuel stations found along the route"
response (lines 182-183); otherwise the total cost is the sum of the stop
costs, rounded to 2 decimals in the response (lines 185 and 197). -/
def aggregate (stationsFor : List (ℚ × ℚ) → Except String (List FuelStation))
    (segments : List (List (ℚ × ℚ))) (segment_distances : List ℚ) :
    ℕ × Option String × Option ℚ :=
  let fuel_stops := flattenStops stationsFor segments segment_distances
  if fuel_stops.isEmpty then
    (404, some "No fuel stations found along the route", none)
  else
    let total_fuel_cost := (fuel_stops.map (fun st => st.cost)).sum
    (200, none, some (pyRound2 total_fuel_cost))

/-- An external call issued by `OptimizedRouteView.post` while serving one
request: a Nominatim geocoding request (`get_coordinates`, lines 207-220), the
openrouteservice directions call (lines 167-171), or the per-segment station
index query (views.py lines 87-89, issued from `find_optimal_fuel_stops`). -/
inductive ExtCall
  | nominatim (location : String)
  | orsDirections
  | stationQuery
  deriving DecidableEq

/-- A raised Python exception, by its message. -/
structure PyExc where
  msg : String
  deriving DecidableEq

/-- Python call semantics for a plain function reached through attribute
lookup on an instance (a bound method): the call supplies the receiver plus
the written arguments, and raises `TypeError` unless that count equals the
number of parameters in the `def`. -/
def pyCall (declaredParams argsGiven : ℕ) (result : α) : Except PyExc α :=
  if argsGiven = declaredParams then .ok result
  else .error ⟨"generate_cache_key() takes " ++ toString declaredParams ++
    " positional arguments but " ++ toString argsGiven ++ " were given"⟩

/-- views.py line 229: `def generate_cache_key(start, end)` — two parameters,
no `self`. -/
def generate_cache_key_declared_params : ℕ := 2

/-- views.py line 153: `self.generate_cache_key(start, end)` — a bound call,
so three arguments (`self`, `start`, `end`) are supplied. -/
def generate_cache_key_args_given : ℕ := 3

/-- views.py lines 229-231: the body of `generate_cache_key` (an md5 of
"start|end" prefixed with "route:"), with the hash function supplied by the
environment. -/
def generate_cache_key (md5hex : String → String) (start stop : String) : String :=
  "route:" ++ md5hex (start ++ "|" ++ stop)

/-- views.py lines 222-227, `verify_us_location`: the coordinate (lon, lat)
must lie in the fixed USA bounding box. -/
def verify_us_location (coords : ℚ × ℚ) : Bool :=
  decide (-125 ≤ coords.1) && decide (coords.1 ≤ -66) &&
    decide (24 ≤ coords.2) && decide (coords.2 ≤ 50)

/-- The external collaborators of `OptimizedRouteView.post`: the cache, the
Nominatim geocoder, the openrouteservice directions provider, the station
index (one query per segment), the md5 hash primitive, and the geodesic
distance primitive used by `calculate_route_segments`. -/
structure PostEnv where
  md5hex : String → String
  cacheGet : String → Option (String × ℚ)
  geocode : String → Option (ℚ × ℚ)
  orsRoute : Except String (List Pt)
  stationsFor : List Pt → Except String (List FuelStation)
  gd : Pt → Pt → ℚ

/-- The body of the `try:` block of `OptimizedRouteView.post` (views.py lines
146-201), after the start/end presence check, together with the list of
external calls issued.  Returns the response (status, error message) or the
exception that escaped to the `except` handler. -/
def postTry (env : PostEnv) (start stop : String) :
    Except PyExc (ℕ × Option String) × List ExtCall :=
  match pyCall generate_cache_key_declared_params generate_cache_key_args_given
      (generate_cache_key env.md5hex start stop) with
  | .error ex => (.error ex, [])
  | .ok cache_key =>
    match env.cacheGet cache_key with
    | some _ => (.ok (200, none), [])
    | none =>
      let callsGeo := [ExtCall.nominatim start, ExtCall.nominatim stop]
      match env.geocode start, env.geocode stop with
      | some start_coords, some end_coords =>
        if !verify_us_location start_coords || !verify_us_location end_coords then
          (.ok (400, some "Both locations must be within the USA"), callsGeo)
        else
          match env.orsRoute with
          | .error m => (.error ⟨m⟩, callsGeo ++ [ExtCall.orsDirections])
          | .ok route_coords =>
            let sd := calculate_route_segments env.gd route_coords MAX_RANGE_MILES
            let agg := aggregate env.stationsFor sd.1 sd.2
            (.ok (agg.1, agg.2.1),
              callsGeo ++ [ExtCall.orsDirections] ++
                List.replicate sd.1.length ExtCall.stationQuery)
      | _, _ =>
        (.ok (400, some "Unable to geocode start or end location."), callsGeo)

/-- views.py lines 144-205, `OptimizedRouteView.post`: parse start/end from
the request body, reject missing/empty values with a 400 (lines 150-151), run
the `try:` body, and map an escaped exception to a 500 response whose body
carries the exception message (lines 203-205). -/
def post (env : PostEnv) (startField endField : Option String) :
    ℕ × Option String × List ExtCall :=
  let start := startField.getD ""
  let stop := endField.getD ""
  if start = "" || stop = "" then
    (400, some "start and end are required", [])
  else
    match postTry env start stop with
    | (.ok r, calls) => (r.1, r.2, calls)
    | (.error ex, calls) => (500, some ex.msg, calls)


/-! ## Concrete inputs used by witnesses and counterexamples -/

/-- A constant stand-in for the external geodesic distance function. -/
def gdConst (c : ℚ) : Pt → Pt → ℚ := fun _ _ => c

/-- A two-point route. -/
def routeTwo : List Pt := [(0, 0), (1, 0)]

/-! ## Claims about the Route Segmenter -/

/-- C1 (amended): provided every consecutive-pair geodesic distance is at most
`M`, every distance recorded by `calculate_route_segments(route, M)` is at
most `M`, and every produced segment has at least 2 points.  (The unamended
claim fails when the leftover of a split pair itself exceeds `M`: see the
counterexample, where the trailing recorded distance is `1.5 * M`.) -/
theorem C1_segment_distances_bounded (gd : Pt → Pt → ℚ) (route : List Pt) (M : ℚ)
    (hgd : ∀ a b, 0 ≤ gd a b) (hroute : 2 ≤ route.length) (hM : 0 < M)
    (hpairs : routePairsLe gd M route) :
    (∀ d ∈ (calculate_route_segments gd route M).2, d ≤ M) ∧
      (∀ s ∈ (calculate_route_segments gd route M).1, 2 ≤ s.length) := by
  match route, hroute with
  | p :: q :: rest, _ =>
    have hpairs2 : pairsLe gd M p (q :: rest) := hpairs
    obtain ⟨k, f, hrep, hfM, _⟩ := segmentsAux_shape gd M hgd (q :: rest) [p] p 0
      (by simp) (Or.inr (by simp)) hpairs2 le_rfl (le_of_lt hM)
    constructor
    · intro d hd
      have hd2 : d ∈ (segmentsAux gd M [p] p (q :: rest) 0).2 := hd
      rw [hrep] at hd2
      rcases List.mem_append.mp hd2 with h | h
      · rw [List.eq_of_mem_replicate h]
      · rw [List.mem_singleton.mp h]
        exact hfM
    · intro s hs
      exact segmentsAux_seg_points gd M (q :: rest) [p] p 0 (by simp) s hs

/-- C1 counterexample: with a single pair of geodesic length 25 and
`max_segment_length = 10`, the code records the distances `[10, 15]` — the
trailing distance 15 exceeds the maximum 10, refuting the claim that no
recorded distance exceeds `M` (in particular in the case where the leftover
of a split pair itself exceeds `M`). -/
theorem C1_counterexample :
    (calculate_route_segments (gdConst 25) routeTwo 10).2 = [10, 15] ∧
      ¬ ((15 : ℚ) ≤ 10) := by
  constructor
  · norm_num [calculate_route_segments, segmentsAux, gdSwap, gdConst, routeTwo]
  · norm_num

/-- C1 witness. -/
theorem C1_witness :
    (∀ d ∈ (calculate_route_segments (gdConst 3) routeTwo 10).2, d ≤ 10) ∧
      (∀ s ∈ (calculate_route_segments (gdConst 3) routeTwo 10).1, 2 ≤ s.length) :=
  C1_segment_distances_bounded (gdConst 3) routeTwo 10
    (fun _ _ => by norm_num [gdConst])
    (by norm_num [routeTwo]) (by norm_num)
    (by simp only [routeTwo, routePairsLe, pairsLe, gdSwap, gdConst]; norm_num)

/-- C2 (amended): provided every consecutive-pair geodesic distance is at most
`M`, for a route of total length `L > 0` the segmenter returns exactly
`⌈L/M⌉` segments (which equals `L/M` when `L` is an exact multiple of `M`),
the recorded distances sum to exactly `L`, and the segments and distances
lists have the same length.  (The unamended claim fails when a pair's
leftover exceeds `M`: the counterexample yields 2 segments where
`⌈L/M⌉ = 3`.) -/
theorem C2_segment_count (gd : Pt → Pt → ℚ) (route : List Pt) (M : ℚ)
    (hgd : ∀ a b, 0 ≤ gd a b) (hroute : 2 ≤ route.length) (hM : 0 < M)
    (hpairs : routePairsLe gd M route) (hL : 0 < pathLen gd route) :
    ((calculate_route_segments gd route M).1.length : ℤ) = ⌈pathLen gd route / M⌉ ∧
      (calculate_route_segments gd route M).2.sum = pathLen gd route ∧
      (calculate_route_segments gd route M).1.length =
        (calculate_route_segments gd route M).2.length := by
  match route, hroute with
  | p :: q :: rest, _ =>
    have hpairs2 : pairsLe gd M p (q :: rest) := hpairs
    have hL2 : 0 < pathLenAux gd p (q :: rest) := hL
    obtain ⟨k, f, hrep, hfM, hdisj⟩ := segmentsAux_shape gd M hgd (q :: rest) [p] p 0
      (by simp) (Or.inr (by simp)) hpairs2 le_rfl (le_of_lt hM)
    have hsum : (segmentsAux gd M [p] p (q :: rest) 0).2.sum = 0 + pathLenAux gd p (q :: rest) :=
      segmentsAux_sum gd M (q :: rest) [p] p 0 (by simp) (Or.inr (by simp))
    have hlen : (segmentsAux gd M [p] p (q :: rest) 0).1.length =
        (segmentsAux gd M [p] p (q :: rest) 0).2.length :=
      segmentsAux_length_eq gd M (q :: rest) [p] p 0
    have hf0 : 0 < f := by
      rcases hdisj with h | ⟨_, hf⟩
      · exact h
      · rw [hf]
        linarith
    have hksum : pathLenAux gd p (q :: rest) = (k : ℚ) * M + f := by
      have h2 := hsum
      rw [hrep] at h2
      simp only [List.sum_append, List.sum_replicate, List.sum_cons, List.sum_nil,
        nsmul_eq_mul, zero_add, add_zero] at h2
      linarith
    have hlen2 : (segmentsAux gd M [p] p (q :: rest) 0).2.length = k + 1 := by
      rw [hrep]
      simp
    refine ⟨?_, ?_, hlen⟩
    · show ((segmentsAux gd M [p] p (q :: rest) 0).1.length : ℤ) =
        ⌈pathLenAux gd p (q :: rest) / M⌉
      rw [hlen, hlen2]
      symm
      rw [Int.ceil_eq_iff]
      constructor
      · push_cast
        rw [hksum, lt_div_iff₀ hM]
        nlinarith
      · push_cast
        rw [hksum, div_le_iff₀ hM]
        nlinarith
    · show (segmentsAux gd M [p] p (q :: rest) 0).2.sum = pathLenAux gd p (q :: rest)
      rw [hsum]
      ring

/-- C2 counterexample: with a single pair of geodesic length 25 and
`M = 10`, the total length is `L = 25` and `⌈L/M⌉ = 3`, but the code returns
only 2 segments, refuting the claimed segment count. -/
theorem C2_counterexample :
    (calculate_route_segments (gdConst 25) routeTwo 10).1.length = 2 ∧
      pathLen (gdConst 25) routeTwo = 25 ∧
      (⌈(25 : ℚ) / 10⌉ : ℤ) = 3 ∧ (2 : ℤ) ≠ 3 := by
  refine ⟨?_, ?_, ?_, by decide⟩
  · norm_num [calculate_route_segments, segmentsAux, gdSwap, gdConst, routeTwo]
  · norm_num [pathLen, pathLenAux, gdSwap, gdConst, routeTwo]
  · norm_num [Int.ceil_eq_iff]

/-- C2 witness. -/
theorem C2_witness :
    ((calculate_route_segments (gdConst 3) routeTwo 10).1.length : ℤ) =
        ⌈pathLen (gdConst 3) routeTwo / 10⌉ ∧
      (calculate_route_segments (gdConst 3) routeTwo 10).2.sum =
        pathLen (gdConst 3) routeTwo ∧
      (calculate_route_segments (gdConst 3) routeTwo 10).1.length =
        (calculate_route_segments (gdConst 3) routeTwo 10).2.length :=
  C2_segment_count (gdConst 3) routeTwo 10
    (fun _ _ => by norm_num [gdConst])
    (by norm_num [routeTwo]) (by norm_num)
    (by simp only [routeTwo, routePairsLe, pairsLe, gdSwap, gdConst]; norm_num)
    (by simp only [routeTwo, pathLen, pathLenAux, gdSwap, gdConst]; norm_num)

/-- C10 (confirmed): a route whose total polyline length is at most `M` is
returned unchanged as a single segment, paired with the single distance equal
to the route's total length. -/
theorem C10_short_route_identity (gd : Pt → Pt → ℚ) (route : List Pt) (M : ℚ)
    (hgd : ∀ a b, 0 ≤ gd a b) (hroute : 2 ≤ route.length)
    (hfit : pathLen gd route ≤ M) :
    calculate_route_segments gd route M = ([route], [pathLen gd route]) := by
  match route, hroute with
  | p :: q :: rest, _ =>
    have hfit2 : (0 : ℚ) + pathLenAux gd p (q :: rest) ≤ M := by
      rw [zero_add]
      exact hfit
    have h := segmentsAux_no_split gd M hgd (q :: rest) [p] p 0
      (by simp) (Or.inr (by simp)) hfit2
    show segmentsAux gd M [p] p (q :: rest) 0 = ([p :: q :: rest], [pathLen gd (p :: q :: rest)])
    rw [h]
    simp only [List.cons_append, List.nil_append, zero_add]
    rfl

/-- C10 witness. -/
theorem C10_witness :
    calculate_route_segments (gdConst 3) routeTwo 10 =
      ([routeTwo], [pathLen (gdConst 3) routeTwo]) :=
  C10_short_route_identity (gdConst 3) routeTwo 10
    (fun _ _ => by norm_num [gdConst])
    (by norm_num [routeTwo])
    (by simp only [routeTwo, pathLen, pathLenAux, gdSwap, gdConst]; norm_num)

/-! ## Claims about the Fuel Stop Locator -/

/-- Evaluation helper: `requiredStops` once the ceiling is known. -/
theorem requiredStops_eq_of_ceil (d : ℚ) (z : ℤ) (h : ⌈d / MAX_RANGE_MILES⌉ = z) :
    requiredStops d = max 1 z.toNat := by
  rw [requiredStops, h]

/-- Evaluation helper: `targetIndex` once the floor is known. -/
theorem targetIndex_eq_of_floor (segLen i rs : ℕ) (z : ℤ)
    (h : ⌊(segLen : ℚ) * ((i + 1 / 2) / rs)⌋ = z) :
    targetIndex segLen i rs = min z.toNat (segLen - 1) := by
  rw [targetIndex, h]

/-- C6 (confirmed): the stop count is `max(1, ceil(segmentDistance /
maxRangeMiles))`; in particular 1 for a 500-mile segment and 2 for a 750-mile
segment at the 500-mile maximum range. -/
theorem C6_required_stops (d : ℚ) (_hd : 0 ≤ d) :
    (requiredStops d : ℤ) = max 1 ⌈d / MAX_RANGE_MILES⌉ ∧
      requiredStops 500 = 1 ∧ requiredStops 750 = 2 := by
  refine ⟨?_, ?_, ?_⟩
  · rw [requiredStops]
    push_cast [Int.ofNat_toNat]
    omega
  · rw [requiredStops_eq_of_ceil 500 1 (by rw [Int.ceil_eq_iff]; norm_num [MAX_RANGE_MILES])]
    decide
  · rw [requiredStops_eq_of_ceil 750 2 (by rw [Int.ceil_eq_iff]; norm_num [MAX_RANGE_MILES])]
    decide

/-- C6 witness. -/
theorem C6_witness :
    (requiredStops 750 : ℤ) = max 1 ⌈(750 : ℚ) / MAX_RANGE_MILES⌉ ∧
      requiredStops 500 = 1 ∧ requiredStops 750 = 2 :=
  C6_required_stops 750 (by norm_num)

/-- C5 (confirmed): at a target point, among the stations passing the
per-point filter the selected one has minimal price, and among the
equally-cheapest its (squared Euclidean) distance to the target is minimal —
price dominates, distance only breaks price ties. -/
theorem C5_price_then_distance (stations : List FuelStation) (point : ℚ × ℚ)
    (s : FuelStation)
    (_htwo : 2 ≤ (stations.filter (fun t => passesRadiusFilter t point)).length)
    (hsel : selectStation stations point = some s) :
    ∀ t ∈ stations.filter (fun t => passesRadiusFilter t point),
      s.price ≤ t.price ∧
        (t.price = s.price → geosDistSq s.location point ≤ geosDistSq t.location point) := by
  intro t ht
  have hsorted : List.Sorted (stationLe point)
      (List.insertionSort (stationLe point)
        (stations.filter (fun t => passesRadiusFilter t point))) :=
    List.sorted_insertionSort (stationLe point) _
  have hmem : t ∈ List.insertionSort (stationLe point)
      (stations.filter (fun t => passesRadiusFilter t point)) :=
    (List.mem_insertionSort (stationLe point)).mpr ht
  rw [selectStation] at hsel
  cases hcase : List.insertionSort (stationLe point)
      (stations.filter (fun t => passesRadiusFilter t point)) with
  | nil =>
      rw [hcase] at hsel
      simp at hsel
  | cons a tail =>
      rw [hcase] at hsel hmem hsorted
      simp only [List.head?_cons, Option.some.injEq] at hsel
      rw [← hsel]
      rcases List.mem_cons.mp hmem with h | h
      · subst h
        exact ⟨le_rfl, fun _ => le_rfl⟩
      · have hrel : stationLe point a t := (List.sorted_cons.mp hsorted).1 t h
        rcases hrel with hlt | ⟨heq, hd⟩
        · have hlt2 : a.price < t.price := hlt
          refine ⟨le_of_lt hlt2, fun hpe => ?_⟩
          rw [hpe] at hlt2
          exact absurd hlt2 (lt_irrefl _)
        · have heq2 : a.price = t.price := heq
          have hd2 : geosDistSq a.location point ≤ geosDistSq t.location point := hd
          exact ⟨le_of_eq heq2, fun _ => hd2⟩

/-- An expensive station at the target point itself. -/
def stExpensiveNear : FuelStation := ⟨"A", "", "", "", 5, (0, 0)⟩

/-- A cheap station one degree away from the target point. -/
def stCheapFar : FuelStation := ⟨"B", "", "", "", 3, (1, 0)⟩

/-- C5 witness: between an expensive station at the target and a cheaper one
farther away, the cheaper one is selected. -/
theorem C5_witness :
    stCheapFar.price ≤ stExpensiveNear.price ∧
      (stExpensiveNear.price = stCheapFar.price →
        geosDistSq stCheapFar.location ((0 : ℚ), (0 : ℚ)) ≤
          geosDistSq stExpensiveNear.location ((0 : ℚ), (0 : ℚ))) :=
  C5_price_then_distance [stExpensiveNear, stCheapFar] ((0 : ℚ), (0 : ℚ)) stCheapFar
    (by norm_num [List.filter, passesRadiusFilter, geosDistSq, searchRadiusMeters,
      SEARCH_RADIUS_MILES, stExpensiveNear, stCheapFar])
    (by norm_num [selectStation, List.insertionSort, List.orderedInsert, List.filter,
      passesRadiusFilter, geosDistSq, searchRadiusMeters, SEARCH_RADIUS_MILES,
      stationLe, stationKey, stExpensiveNear, stCheapFar])
    stExpensiveNear
    (by norm_num [List.filter, passesRadiusFilter, geosDistSq, searchRadiusMeters,
      SEARCH_RADIUS_MILES, stExpensiveNear, stCheapFar])

/-- C9 (amended): when the station-index query (or anything else inside the
`try:` block) raises, `find_optimal_fuel_stops` catches the exception, logs
it and returns `None` — exactly the value returned for an empty candidate
list, so the caller cannot distinguish the failure from the
no-stations-in-corridor outcome. -/
theorem C9_exception_returns_none (e : String) (seg : List Pt) (d : ℚ) :
    find_optimal_fuel_stops (.error e) seg d = none ∧
      find_optimal_fuel_stops (.error e) seg d = find_optimal_fuel_stops (.ok []) seg d :=
  ⟨rfl, rfl⟩

/-- C9 counterexample: a failed station-index query produces the very same
result (`None`) as an empty candidate list, refuting the claim that the
locator surfaces a typed failure distinguishable from the no-stations
outcome. -/
theorem C9_counterexample :
    find_optimal_fuel_stops (.error "station index query raised") routeTwo 100 =
        find_optimal_fuel_stops (.ok []) routeTwo 100 ∧
      find_optimal_fuel_stops (.error "station index query raised") routeTwo 100 = none :=
  ⟨rfl, rfl⟩

/-- A station 10 degrees of longitude (≈ 690 miles) away from the target. -/
def farStation : FuelStation := ⟨"Far", "", "", "", 3, (10, 0)⟩

/-- A degenerate two-point segment at the origin. -/
def pairSegment : List Pt := [(0, 0), (0, 0)]

/-- C4 (code bug): the per-point filter of views.py line 109 compares the GEOS
distance — which is in coordinate DEGREES — against `D(mi=25).m = 40233.6`
METERS, so it accepts every retrieved station: a station whose squared
distance to the target (100, i.e. 10 degrees ≈ 690 miles) far exceeds the
squared 25-mile radius (even in the code's own degree conversion,
`(25 * 1/69)^2 ≈ 0.131`) still passes the filter and is recorded as the stop
for that target, contradicting the code's own comment "Filter stations near
this point within SEARCH_RADIUS_MILES". -/
theorem C4_radius_filter_units_bug :
    passesRadiusFilter farStation ((0 : ℚ), (0 : ℚ)) = true ∧
      geosDistSq farStation.location ((0 : ℚ), (0 : ℚ)) >
        (SEARCH_RADIUS_MILES * MILES_TO_DEGREES) ^ 2 ∧
      find_optimal_fuel_stops (.ok [farStation]) pairSegment 100 =
        some [mkFuelStop farStation 100 1] := by
  have hrs : requiredStops 100 = 1 := by
    rw [requiredStops_eq_of_ceil 100 1 (by rw [Int.ceil_eq_iff]; norm_num [MAX_RANGE_MILES])]
    decide
  have hti : targetIndex 2 0 1 = 1 := by
    rw [targetIndex_eq_of_floor 2 0 1 1 (by rw [Int.floor_eq_iff]; norm_num)]
    decide
  have hlen : pairSegment.length = 2 := rfl
  have hstop : pairSegment.getD 1 ((0 : ℚ), (0 : ℚ)) = (0, 0) := rfl
  have hsel : selectStation [farStation] ((0 : ℚ), (0 : ℚ)) = some farStation := by
    norm_num [selectStation, List.insertionSort, List.orderedInsert, List.filter,
      passesRadiusFilter, geosDistSq, searchRadiusMeters, SEARCH_RADIUS_MILES, farStation]
  refine ⟨?_, ?_, ?_⟩
  · norm_num [passesRadiusFilter, geosDistSq, searchRadiusMeters, SEARCH_RADIUS_MILES,
      farStation]
  · norm_num [geosDistSq, SEARCH_RADIUS_MILES, MILES_TO_DEGREES, farStation]
  · simp only [find_optimal_fuel_stops, List.isEmpty_cons, hrs,
      show List.range 1 = [0] from rfl, List.foldl_cons, List.foldl_nil, collectStop,
      hlen, hti, hstop, hsel, List.nil_append, List.isEmpty_cons]
    rfl

/-! ### The 1000-mile end-to-end scenario (spec §8, scenario A) -/

/-- The station serving the first 500-mile corridor, at $3.00/gal. -/
def scnStation1 : FuelStation := ⟨"S1", "", "", "", 3, (1, 0)⟩

/-- The station serving the second 500-mile corridor, at $3.00/gal. -/
def scnStation2 : FuelStation := ⟨"S2", "", "", "", 3, (2, 0)⟩

/-- First 500-mile segment produced by the segmenter on the scenario route
(the middle point is duplicated by a zero-leftover split). -/
def scnSegA : List Pt := [(0, 0), (1, 0), (1, 0)]

/-- Second 500-mile segment. -/
def scnSegB : List Pt := [(1, 0), (2, 0)]

/-- The scenario route: three points, consecutive geodesic distances 500. -/
def scnRoute : List Pt := [(0, 0), (1, 0), (2, 0)]

/-- The station index of the scenario: one station per corridor. -/
def scnStationsFor : List Pt → Except String (List FuelStation) := fun seg =>
  if seg = scnSegA then .ok [scnStation1] else .ok [scnStation2]

/-- Scenario: the 1000-mile route splits into two 500-mile segments. -/
theorem scn_calc :
    calculate_route_segments (gdConst 500) scnRoute 500 = ([scnSegA, scnSegB], [500, 500]) := by
  norm_num [calculate_route_segments, segmentsAux, gdSwap, gdConst, scnRoute, scnSegA, scnSegB]

/-- Scenario: `requiredStops` for a 500-mile segment is 1. -/
theorem scn_rs : requiredStops 500 = 1 := by
  rw [requiredStops_eq_of_ceil 500 1 (by rw [Int.ceil_eq_iff]; norm_num [MAX_RANGE_MILES])]
  decide

/-- Scenario: the locator on the first segment returns its corridor station. -/
theorem scn_find_A :
    find_optimal_fuel_stops (.ok [scnStation1]) scnSegA 500 =
      some [mkFuelStop scnStation1 500 1] := by
  have hti : targetIndex 3 0 1 = 1 := by
    rw [targetIndex_eq_of_floor 3 0 1 1 (by rw [Int.floor_eq_iff]; norm_num)]
    decide
  have hlen : scnSegA.length = 3 := rfl
  have hstop : scnSegA.getD 1 ((0 : ℚ), (0 : ℚ)) = (1, 0) := rfl
  have hsel : selectStation [scnStation1] ((1 : ℚ), (0 : ℚ)) = some scnStation1 := by
    norm_num [selectStation, List.insertionSort, List.orderedInsert, List.filter,
      passesRadiusFilter, geosDistSq, searchRadiusMeters, SEARCH_RADIUS_MILES, scnStation1]
  simp only [find_optimal_fuel_stops, List.isEmpty_cons, scn_rs,
    show List.range 1 = [0] from rfl, List.foldl_cons, List.foldl_nil, collectStop,
    hlen, hti, hstop, hsel, List.nil_append, List.isEmpty_cons]
  rfl

/-- Scenario: the locator on the second segment returns its corridor station. -/
theorem scn_find_B :
    find_optimal_fuel_stops (.ok [scnStation2]) scnSegB 500 =
      some [mkFuelStop scnStation2 500 1] := by
  have hti : targetIndex 2 0 1 = 1 := by
    rw [targetIndex_eq_of_floor 2 0 1 1 (by rw [Int.floor_eq_iff]; norm_num)]
    decide
  have hlen : scnSegB.length = 2 := rfl
  have hstop : scnSegB.getD 1 ((0 : ℚ), (0 : ℚ)) = (2, 0) := rfl
  have hsel : selectStation [scnStation2] ((2 : ℚ), (0 : ℚ)) = some scnStation2 := by
    norm_num [selectStation, List.insertionSort, List.orderedInsert, List.filter,
      passesRadiusFilter, geosDistSq, searchRadiusMeters, SEARCH_RADIUS_MILES, scnStation2]
  simp only [find_optimal_fuel_stops, List.isEmpty_cons, scn_rs,
    show List.range 1 = [0] from rfl, List.foldl_cons, List.foldl_nil, collectStop,
    hlen, hti, hstop, hsel, List.nil_append, List.isEmpty_cons]
  rfl

/-- Scenario: the station index routes each segment to its corridor station. -/
theorem scn_stations_A : scnStationsFor scnSegA = .ok [scnStation1] := if_pos rfl

/-- Scenario: the second segment is not the first. -/
theorem scn_stations_B : scnStationsFor scnSegB = .ok [scnStation2] := by
  rw [scnStationsFor]
  exact if_neg (by norm_num [scnSegA, scnSegB])

/-- Scenario: the flattened stop list contains the two corridor stops in
segment order. -/
theorem scn_flatten :
    flattenStops scnStationsFor [scnSegA, scnSegB] [500, 500] =
      [mkFuelStop scnStation1 500 1, mkFuelStop scnStation2 500 1] := by
  simp only [flattenStops, List.zip_cons_cons, List.zip_nil_right, List.foldl_cons,
    List.foldl_nil, scn_stations_A, scn_stations_B, scn_find_A, scn_find_B,
    Option.getD_some, List.nil_append]
  rfl

/-- Scenario: each stop purchases 50 gallons for $150.00. -/
theorem scn_stop_values :
    (mkFuelStop scnStation1 500 1).gallons = 50 ∧
      (mkFuelStop scnStation1 500 1).cost = 150 ∧
      (mkFuelStop scnStation2 500 1).gallons = 50 ∧
      (mkFuelStop scnStation2 500 1).cost = 150 := by
  refine ⟨?_, ?_, ?_, ?_⟩ <;>
    norm_num [mkFuelStop, pyRound2, pyRoundInt, MAX_RANGE_MILES, MPG,
      scnStation1, scnStation2]

/-- Scenario: the aggregation stage reports a $300.00 total. -/
theorem scn_aggregate :
    aggregate scnStationsFor [scnSegA, scnSegB] [500, 500] = (200, none, some 300) := by
  have h := scn_stop_values
  simp only [aggregate, scn_flatten, List.isEmpty_cons, Bool.false_eq_true, if_false,
    List.map_cons, List.map_nil, List.sum_cons, List.sum_nil, h.2.1, h.2.2.2, add_zero]
  norm_num [pyRound2, pyRoundInt]

/-- C8 (confirmed, about the aggregation stage): an empty flattened stop list
yields the 404 NoStationsFound error response and no total; a non-empty one
yields a 200 response whose total fuel cost is the sum of all stop costs,
rounded to 2 decimals on the final sum. -/
theorem C8_aggregate_total
    (stationsFor : List (ℚ × ℚ) → Except String (List FuelStation))
    (segments : List (List (ℚ × ℚ))) (segment_distances : List ℚ) :
    (flattenStops stationsFor segments segment_distances = [] →
      aggregate stationsFor segments segment_distances =
        (404, some "No fuel stations found along the route", none)) ∧
    (flattenStops stationsFor segments segment_distances ≠ [] →
      aggregate stationsFor segments segment_distances =
        (200, none, some (pyRound2
          (((flattenStops stationsFor segments segment_distances).map
            (fun st => st.cost)).sum)))) := by
  constructor
  · intro h
    rw [aggregate, h]
    rfl
  · intro h
    rw [aggregate, if_neg (by simpa [List.isEmpty_iff] using h)]

/-- C8 witness: a station index returning no stations at all triggers the 404
branch; the end-to-end scenario triggers the 200 branch with the summed,
rounded total. -/
theorem C8_witness :
    aggregate (fun _ => Except.ok []) [routeTwo] [100] =
        (404, some "No fuel stations found along the route", none) ∧
      aggregate scnStationsFor [scnSegA, scnSegB] [500, 500] =
        (200, none, some (pyRound2
          (((flattenStops scnStationsFor [scnSegA, scnSegB] [500, 500]).map
            (fun st => st.cost)).sum))) :=
  ⟨(C8_aggregate_total (fun _ => Except.ok []) [routeTwo] [100]).1 rfl,
    (C8_aggregate_total scnStationsFor [scnSegA, scnSegB] [500, 500]).2
      (by rw [scn_flatten]; exact List.cons_ne_nil _ _)⟩

/-- Every stop accumulated by the loop of `find_optimal_fuel_stops` is either
already in the accumulator or was built by `mkFuelStop` from some station. -/
theorem mem_foldl_collectStop (stations : List FuelStation) (seg : List Pt)
    (d : ℚ) (rs : ℕ) :
    ∀ (l : List ℕ) (acc : List FuelStop) (st : FuelStop),
      st ∈ l.foldl (collectStop stations seg d rs) acc →
      st ∈ acc ∨ ∃ s : FuelStation, st = mkFuelStop s d rs
  | [], _, _, h => Or.inl h
  | i :: l, acc, st, h => by
      have ih := mem_foldl_collectStop stations seg d rs l
        (collectStop stations seg d rs acc i) st (by simpa using h)
      rcases ih with h2 | h2
      · simp only [collectStop] at h2
        cases hsel : selectStation stations (seg.getD (targetIndex seg.length i rs) (0, 0)) with
        | none =>
            rw [hsel] at h2
            exact Or.inl h2
        | some s =>
            rw [hsel] at h2
            rcases List.mem_append.mp h2 with h3 | h3
            · exact Or.inl h3
            · exact Or.inr ⟨s, List.mem_singleton.mp h3⟩
      · exact Or.inr h2

/-- A successful `find_optimal_fuel_stops` call means the query succeeded,
the station list was non-empty, and the returned stops are the collected
loop results. -/
theorem find_optimal_some_eq (query : Except String (List FuelStation))
    (seg : List Pt) (d : ℚ) (stops : List FuelStop)
    (hq : find_optimal_fuel_stops query seg d = some stops) :
    ∃ stations, query = .ok stations ∧
      stops = (List.range (requiredStops d)).foldl
        (collectStop stations seg d (requiredStops d)) [] := by
  cases query with
  | error e => simp [find_optimal_fuel_stops] at hq
  | ok stations =>
      refine ⟨stations, rfl, ?_⟩
      simp only [find_optimal_fuel_stops] at hq
      split_ifs at hq with h1 h2
      exact (Option.some.inj hq).symm

/-- C7 (confirmed): every stop selected by the locator purchases
`min(segmentDistance / requiredStops, maxRangeMiles) / milesPerGallon`
gallons (its recorded `gallons` field being that quantity rounded to 2
decimals) at cost `round(price × gallons, 2)`; and in the end-to-end
1000-mile scenario (two 500-mile segments, one $3.00/gal station per
corridor) there are exactly 2 stops of 50 gallons costing $150.00 each, for
a reported total of $300.00. -/
theorem C7_stop_sizing (query : Except String (List FuelStation)) (seg : List Pt)
    (d : ℚ) (stops : List FuelStop)
    (hq : find_optimal_fuel_stops query seg d = some stops) :
    (∀ st ∈ stops,
        st.gallons = pyRound2 (min (d / requiredStops d) MAX_RANGE_MILES / MPG) ∧
          st.cost = pyRound2 (st.price * (min (d / requiredStops d) MAX_RANGE_MILES / MPG))) ∧
      calculate_route_segments (gdConst 500) scnRoute 500 = ([scnSegA, scnSegB], [500, 500]) ∧
      flattenStops scnStationsFor [scnSegA, scnSegB] [500, 500] =
        [mkFuelStop scnStation1 500 1, mkFuelStop scnStation2 500 1] ∧
      (mkFuelStop scnStation1 500 1).gallons = 50 ∧
      (mkFuelStop scnStation1 500 1).cost = 150 ∧
      (mkFuelStop scnStation2 500 1).gallons = 50 ∧
      (mkFuelStop scnStation2 500 1).cost = 150 ∧
      aggregate scnStationsFor [scnSegA, scnSegB] [500, 500] = (200, none, some 300) := by
  obtain ⟨stations, rfl, hst⟩ := find_optimal_some_eq query seg d stops hq
  refine ⟨?_, scn_calc, scn_flatten, scn_stop_values.1, scn_stop_values.2.1,
    scn_stop_values.2.2.1, scn_stop_values.2.2.2, scn_aggregate⟩
  intro st hmem
  rw [hst] at hmem
  rcases mem_foldl_collectStop stations seg d (requiredStops d)
      (List.range (requiredStops d)) [] st hmem with h | ⟨s, rfl⟩
  · simp at h
  · exact ⟨rfl, rfl⟩

/-- C7 witness. -/
theorem C7_witness :
    (∀ st ∈ [mkFuelStop scnStation1 500 1],
        st.gallons = pyRound2 (min ((500 : ℚ) / requiredStops 500) MAX_RANGE_MILES / MPG) ∧
          st.cost = pyRound2 (st.price *
            (min ((500 : ℚ) / requiredStops 500) MAX_RANGE_MILES / MPG))) ∧
      calculate_route_segments (gdConst 500) scnRoute 500 = ([scnSegA, scnSegB], [500, 500]) ∧
      flattenStops scnStationsFor [scnSegA, scnSegB] [500, 500] =
        [mkFuelStop scnStation1 500 1, mkFuelStop scnStation2 500 1] ∧
      (mkFuelStop scnStation1 500 1).gallons = 50 ∧
      (mkFuelStop scnStation1 500 1).cost = 150 ∧
      (mkFuelStop scnStation2 500 1).gallons = 50 ∧
      (mkFuelStop scnStation2 500 1).cost = 150 ∧
      aggregate scnStationsFor [scnSegA, scnSegB] [500, 500] = (200, none, some 300) :=
  C7_stop_sizing (.ok [scnStation1]) scnSegA 500 [mkFuelStop scnStation1 500 1] scn_find_A

/-! ## Claim about the request handler -/

/-- C3 (confirmed): for any POST body with non-empty start and end (and a
cache with no hit for any key), the bound call `self.generate_cache_key(start,
end)` supplies 3 arguments to the 2-parameter function `generate_cache_key`,
raising `TypeError`; the catch-all `except` turns this into a status-500
response, and no geocoding, route-provider or station-index call is ever
issued, so the endpoint never returns a successful route plan. -/
theorem C3_cache_key_type_error (env : PostEnv) (s e : String)
    (hs : s ≠ "") (he : e ≠ "") (_hnc : ∀ k, env.cacheGet k = none) :
    post env (some s) (some e) =
      (500, some "generate_cache_key() takes 2 positional arguments but 3 were given", []) := by
  have hfalsy : ¬ ((decide (s = "") || decide (e = "")) = true) := by
    simp [hs, he]
  have hargs : ¬ (generate_cache_key_args_given = generate_cache_key_declared_params) := by
    decide
  rw [post]
  simp only [Option.getD_some]
  rw [if_neg hfalsy, postTry, pyCall, if_neg hargs]
  rfl

/-- A concrete environment for the C3 witness: the cache always misses and
every external collaborator is a stub. -/
def witnessEnv : PostEnv :=
  { md5hex := fun s => s
    cacheGet := fun _ => none
    geocode := fun _ => none
    orsRoute := .error "unreachable"
    stationsFor := fun _ => .ok []
    gd := gdConst 1 }

/-- C3 witness. -/
theorem C3_witness :
    post witnessEnv (some "Los Angeles") (some "New York") =
      (500, some "generate_cache_key() takes 2 positional arguments but 3 were given", []) :=
  C3_cache_key_type_error witnessEnv "Los Angeles" "New York"
    (by simp) (by simp) (fun _ => rfl)
